import Mathlib

/-!
Verification of the interactive force-directed knowledge-graph engine of the
DocuMorph repository (frontend component `KnowledgeGraph.tsx` and the API
client `lib/api.ts`).  JavaScript numbers are modelled as real numbers; the
JavaScript falsy-coalescing operator `||` on optional strings and on numbers
is modelled explicitly (`jsOr`, `Option.getD`).  All definitions are
translated from the source; line references point into
`src/pdf2web-frontend/src/components/dashboard/KnowledgeGraph.tsx` unless
stated otherwise.
-/

namespace KG

open Classical

/-- `GraphNode.data` field (source lines 15-20). -/
structure NodeData where
  type : String
  block_id : Option String := none
  page : Option ℤ := none
  confidence : Option ℝ := none

/-- Graph node (source lines 8-26).  The simulation-only fields `x, y, vx, vy`
are optional, exactly as in the source. -/
structure GraphNode where
  id : String
  label : String
  title : Option String := none
  type : Option String := none
  group : Option String := none
  color : Option String := none
  data : Option NodeData := none
  x : Option ℝ := none
  y : Option ℝ := none
  vx : Option ℝ := none
  vy : Option ℝ := none

/-- Graph edge (source lines 28-35).  The source fields `from`/`to` are named
`fromId`/`toId` here because `from` is a Lean keyword. -/
structure GraphEdge where
  id : String
  fromId : String
  toId : String
  label : Option String := none
  color : Option String := none
  type : Option String := none

/-- Snapshot metadata (source lines 40-45). -/
structure GraphMetadata where
  total_nodes : ℤ
  total_edges : ℤ
  entity_types : List String
  relationship_types : List String

/-- `KnowledgeGraphData` (source lines 37-46). -/
structure KnowledgeGraphData where
  nodes : List GraphNode
  edges : List GraphEdge
  metadata : Option GraphMetadata := none

/-- JavaScript `a || b` on optional strings: `a` is taken when it is present
and not the empty string (the empty string is falsy in JavaScript). -/
def jsOr (a b : Option String) : Option String :=
  match a with
  | some s => if s = "" then b else some s
  | none => b

/-- `node.x || 0` (the source reads coordinates with a `|| 0` default). -/
def posX (n : GraphNode) : ℝ := n.x.getD 0

/-- `node.y || 0`. -/
def posY (n : GraphNode) : ℝ := n.y.getD 0

/-- `node.vx || 0`. -/
def velX (n : GraphNode) : ℝ := n.vx.getD 0

/-- `node.vy || 0`. -/
def velY (n : GraphNode) : ℝ := n.vy.getD 0

/-! ## Zoom controls (source lines 350-355)

`setZoom(z => Math.min(2, z + 0.2))` and `setZoom(z => Math.max(0.5, z - 0.2))`,
starting from the initial state `useState(1)` (line 54). -/

/-- Zoom-in button handler: `z ↦ min 2 (z + 0.2)`. -/
def zoomInStep (z : ℝ) : ℝ := min 2 (z + 0.2)

/-- Zoom-out button handler: `z ↦ max 0.5 (z - 0.2)`. -/
def zoomOutStep (z : ℝ) : ℝ := max 0.5 (z - 0.2)

/-- A zoom button press. -/
inductive ZoomOp where
  | zoomIn : ZoomOp
  | zoomOut : ZoomOp

/-- Apply one zoom button press. -/
def applyZoomOp (z : ℝ) (op : ZoomOp) : ℝ :=
  match op with
  | .zoomIn => zoomInStep z
  | .zoomOut => zoomOutStep z

/-- The zoom factor after a sequence of button presses, starting from the
initial factor 1 (source line 54, `useState(1)`). -/
def applyZoomOps (ops : List ZoomOp) : ℝ := ops.foldl applyZoomOp 1

/-! ## API client (source `lib/api.ts`, in `src/unnamed/part_003`) -/

/-- The request issued by `api.simplifyKnowledgeGraph` (part_003 lines
383-391): URL, method and the JSON body's `max_nodes` value. -/
structure SimplifyGraphRequest where
  url : String
  method : String
  max_nodes : ℝ

/-- `simplifyKnowledgeGraph(documentId, maxNodes = 20)` from the API client
(part_003 lines 383-391; `API_BASE = '/api'`).  The TypeScript default
parameter value is `20`. -/
def simplifyKnowledgeGraph (documentId : String) (maxNodes : ℝ := 20) :
    SimplifyGraphRequest :=
  { url := "/api/knowledge-graph/" ++ documentId ++ "/simplify"
    method := "POST"
    max_nodes := maxNodes }

/-- The call the `KnowledgeGraph` component makes in `simplifyGraph`
(source line 90): `api.simplifyKnowledgeGraph(currentDocument.document_id, 15)`. -/
def componentSimplifyRequest (documentId : String) : SimplifyGraphRequest :=
  simplifyKnowledgeGraph documentId 15

/-! ## Component state and the generate / simplify operations
(source lines 48-98) -/

/-- The React state of the `KnowledgeGraph` component that the claims are
about: `currentDocument` (from the store), `graph`, `isGenerating`,
`isSimplified`, `selectedNode`, `zoom` and the `nodesRef` layout arena
(source lines 49-58). -/
structure ComponentState where
  currentDocument : Option String
  graph : Option KnowledgeGraphData
  isGenerating : Bool
  isSimplified : Bool
  selectedNode : Option GraphNode
  zoom : ℝ
  nodesRef : List GraphNode

/-- `generateGraph` (source lines 72-85) when the awaited request succeeds
with `data`: the guard `if (!currentDocument) return` aborts early; otherwise
`setIsGenerating(true)`, `setSelectedNode(null)` run before the request, and on
success `setGraph(data)`, `setIsSimplified(false)` and finally
`setIsGenerating(false)` run.  The state after completion is recorded. -/
def generateSuccess (s : ComponentState) (data : KnowledgeGraphData) :
    ComponentState :=
  if s.currentDocument.isNone then s
  else { s with
          selectedNode := none
          graph := some data
          isSimplified := false
          isGenerating := false }

/-- `generateGraph` (source lines 72-85) when the awaited request throws:
`setSelectedNode(null)` already ran before the request; the catch block only
logs, and the finally block runs `setIsGenerating(false)`. -/
def generateFailure (s : ComponentState) : ComponentState :=
  if s.currentDocument.isNone then s
  else { s with selectedNode := none, isGenerating := false }

/-- `simplifyGraph` (source lines 87-98) when the awaited request succeeds
with `data`: the guard `if (!currentDocument || !graph) return` aborts early;
otherwise `nodesRef.current = []`, `setGraph(data)`, `setIsSimplified(true)`.
No `setSelectedNode` call occurs in this function. -/
def simplifySuccess (s : ComponentState) (data : KnowledgeGraphData) :
    ComponentState :=
  if s.currentDocument.isNone || s.graph.isNone then s
  else { s with
          nodesRef := []
          graph := some data
          isSimplified := true }

/-- `simplifyGraph` (source lines 87-98) when the awaited request throws: the
catch block only logs (`console.error`); no state is touched. -/
def simplifyFailure (s : ComponentState) : ComponentState := s

/-! ## Force-directed simulation step (`simulateForces`, source lines 118-165)

`nodes.forEach((node, i) => ...)` mutates the array in place, so when node
`i` is processed, nodes `0..i-1` already carry their updated positions; the
embedding threads the evolving list through a fold over the indices. -/

/-- Repulsion contribution of `other` on `node` (source lines 130-135):
`dx = node.x - other.x`, `dy = node.y - other.y`,
`dist = Math.sqrt(dx*dx + dy*dy) || 1` (the JavaScript `|| 1` replaces the
value by 1 only when it is exactly 0), `force = 5000 / (dist*dist)`, and the
contribution `((dx/dist)*force, (dy/dist)*force)` is added to `(fx, fy)`. -/
noncomputable def repulsionContrib (node other : GraphNode) : ℝ × ℝ :=
  let dx := posX node - posX other
  let dy := posY node - posY other
  let d0 := Real.sqrt (dx * dx + dy * dy)
  let dist := if d0 = 0 then 1 else d0
  let force := 5000 / (dist * dist)
  (dx / dist * force, dy / dist * force)

/-- Euclidean distance between two nodes' `(x || 0, y || 0)` positions. -/
noncomputable def nodeDist (a b : GraphNode) : ℝ :=
  Real.sqrt ((posX a - posX b) * (posX a - posX b) +
    (posY a - posY b) * (posY a - posY b))

/-- Repulsion sum over all other nodes (source lines 128-136): every index
`j ≠ i` contributes; the index test is `i === j`, not an id comparison. -/
noncomputable def repulsionForce (i : ℕ) (nodes : List GraphNode)
    (node : GraphNode) : ℝ × ℝ :=
  nodes.enum.foldl
    (fun acc oj =>
      if oj.1 = i then acc
      else
        (acc.1 + (repulsionContrib node oj.2).1,
         acc.2 + (repulsionContrib node oj.2).2))
    (0, 0)

/-- Resolution of the other endpoint of an edge incident to `node`
(source lines 140-142): `if (edge.from === node.id) other = nodes.find(n =>
n.id === edge.to); else if (edge.to === node.id) other = nodes.find(n =>
n.id === edge.from)`. -/
def attractionOther (nodes : List GraphNode) (node : GraphNode)
    (edge : GraphEdge) : Option GraphNode :=
  if edge.fromId = node.id then nodes.find? (fun n => n.id == edge.toId)
  else if edge.toId = node.id then nodes.find? (fun n => n.id == edge.fromId)
  else none

/-- Attraction accumulation over the edge list (source lines 139-149): when
the other endpoint resolves, `fx += dx * 0.006; fy += dy * 0.006` with
`dx = other.x - node.x`; otherwise the edge contributes nothing. -/
def attractionForce (nodes : List GraphNode) (node : GraphNode)
    (edges : List GraphEdge) (init : ℝ × ℝ) : ℝ × ℝ :=
  edges.foldl
    (fun acc edge =>
      match attractionOther nodes node edge with
      | some other =>
          (acc.1 + (posX other - posX node) * 0.006,
           acc.2 + (posY other - posY node) * 0.006)
      | none => acc)
    init

/-- Net force on the node at index `i` (source lines 125-153): repulsion sum,
then attraction, then center gravity `(width/2 - x) * 0.0005` and
`(height/2 - y) * 0.0005`. -/
noncomputable def netForce (nodes : List GraphNode) (edges : List GraphEdge)
    (w h : ℝ) (i : ℕ) (node : GraphNode) : ℝ × ℝ :=
  let att := attractionForce nodes node edges (repulsionForce i nodes node)
  (att.1 + (w / 2 - posX node) * 0.0005, att.2 + (h / 2 - posY node) * 0.0005)

/-- Per-node update (source lines 156-161): damped velocity
`v ← (v + F) * 0.7`, then the clamped position update
`x ← max 70 (min (width - 70) (x + vx))`,
`y ← max 55 (min (height - 55) (y + vy))`. -/
noncomputable def stepNode (nodes : List GraphNode) (edges : List GraphEdge)
    (w h : ℝ) (i : ℕ) (node : GraphNode) : GraphNode :=
  let f := netForce nodes edges w h i node
  let vx := (velX node + f.1) * 0.7
  let vy := (velY node + f.2) * 0.7
  let x := max 70 (min (w - 70) (posX node + vx))
  let y := max 55 (min (h - 55) (posY node + vy))
  { node with vx := some vx, vy := some vy, x := some x, y := some y }

/-- One iteration of the in-place `forEach`: update the node stored at index
`i` using the positions currently in the array. -/
noncomputable def stepAt (edges : List GraphEdge) (w h : ℝ)
    (acc : List GraphNode) (i : ℕ) : List GraphNode :=
  match acc[i]? with
  | some node => acc.set i (stepNode acc edges w h i node)
  | none => acc

/-- `simulateForces(nodes, edges, width, height)` (source lines 119-165):
sequential in-place update of every node. -/
noncomputable def simulateForces (nodes : List GraphNode)
    (edges : List GraphEdge) (w h : ℝ) : List GraphNode :=
  (List.range nodes.length).foldl (stepAt edges w h) nodes

/-! ## Render pipeline (`drawGraph`, source lines 168-284)

The frame is modelled as the list of drawing commands issued for edges and
nodes.  The static background fill and grid (lines 185-202) depend on no
graph data and are omitted from the frame record; text metrics
(`ctx.measureText`) are environment-supplied and abstracted as a `measure`
parameter. -/

/-- `Math.atan2(y, x)`, modelled as the complex argument of `x + iy`. -/
noncomputable def jsAtan2 (y x : ℝ) : ℝ := Complex.arg ⟨x, y⟩

/-- The `nodeColors` table (source lines 60-70). -/
def nodeColors (t : String) : Option String :=
  if t = "section" then some "#4e79a7"
  else if t = "concept" then some "#f28e2c"
  else if t = "person" then some "#e15759"
  else if t = "date" then some "#76b7b2"
  else if t = "location" then some "#59a14f"
  else if t = "table" then some "#edc949"
  else if t = "figure" then some "#af7aa1"
  else if t = "definition" then some "#ff9da7"
  else if t = "organization" then some "#9c755f"
  else none

/-- Category resolution in the node pass (source line 240):
`node.data?.type || node.group || node.type || 'concept'`. -/
def resolvedNodeType (n : GraphNode) : String :=
  (jsOr (jsOr (jsOr (n.data.map (·.type)) n.group) n.type)
    (some "concept")).getD "concept"

/-- Color resolution (source line 241):
`node.color || nodeColors[type] || '#64748b'`. -/
def resolvedNodeColor (n : GraphNode) : String :=
  (jsOr (jsOr n.color (nodeColors (resolvedNodeType n)))
    (some "#64748b")).getD "#64748b"

/-- Label truncation (source line 269):
`label.length > 18 ? label.slice(0, 16) + '...' : label`. -/
def truncatedLabel (label : String) : String :=
  if label.length > 18 then label.take 16 ++ "..." else label

/-- Drawing command for one edge: the straight line (source lines 218-223)
and the filled triangular arrowhead near the target (lines 226-235). -/
structure EdgeCommand where
  x1 : ℝ
  y1 : ℝ
  x2 : ℝ
  y2 : ℝ
  color : String
  arrowX : ℝ
  arrowY : ℝ
  p1x : ℝ
  p1y : ℝ
  p2x : ℝ
  p2y : ℝ

/-- Drawing command for one node: glow, circle, border, label and its
background rectangle (source lines 239-281). -/
structure NodeCommand where
  x : ℝ
  y : ℝ
  radius : ℝ
  color : String
  selected : Bool
  borderColor : String
  borderWidth : ℝ
  label : String
  bgX : ℝ
  bgY : ℝ
  bgW : ℝ
  bgH : ℝ
  labelX : ℝ
  labelY : ℝ

/-- Edge pass for a single edge (source lines 212-236): both endpoints must
resolve in the current node array (`nodes.find(n => n.id === edge.from)` /
`edge.to`), otherwise the edge draws nothing. -/
noncomputable def edgeCommand (nodes : List GraphNode) (e : GraphEdge) :
    Option EdgeCommand :=
  match nodes.find? (fun n => n.id == e.fromId),
      nodes.find? (fun n => n.id == e.toId) with
  | some fromNode, some toNode =>
      let angle := jsAtan2 (posY toNode - posY fromNode)
        (posX toNode - posX fromNode)
      let ax := posX toNode - Real.cos angle * 24
      let ay := posY toNode - Real.sin angle * 24
      some
        { x1 := posX fromNode
          y1 := posY fromNode
          x2 := posX toNode
          y2 := posY toNode
          color := (jsOr e.color (some "#6b7280")).getD "#6b7280"
          arrowX := ax
          arrowY := ay
          p1x := ax - 10 * Real.cos (angle - 0.4)
          p1y := ay - 10 * Real.sin (angle - 0.4)
          p2x := ax - 10 * Real.cos (angle + 0.4)
          p2y := ay - 10 * Real.sin (angle + 0.4) }
  | _, _ => none

/-- The full edge pass (source lines 212-236). -/
noncomputable def drawnEdges (nodes : List GraphNode)
    (edges : List GraphEdge) : List EdgeCommand :=
  edges.filterMap (edgeCommand nodes)

/-- Node pass for a single node (source lines 239-281).  `isSelected` is
`selectedNode?.id === node.id`; the radius is 24 when selected, 20 otherwise;
`measure` stands for `ctx.measureText(label).width`. -/
noncomputable def nodeCommand (selected : Option GraphNode) (measure : String → ℝ)
    (n : GraphNode) : NodeCommand :=
  let isSel : Bool := match selected with
    | some s => s.id == n.id
    | none => false
  let radius : ℝ := if isSel then 24 else 20
  let label := truncatedLabel n.label
  let textWidth := measure label
  { x := posX n
    y := posY n
    radius := radius
    color := resolvedNodeColor n
    selected := isSel
    borderColor := if isSel then "#fff" else "#0f0f14"
    borderWidth := if isSel then 4 else 3
    label := label
    bgX := posX n - textWidth / 2 - 4
    bgY := posY n + radius + 6
    bgW := textWidth + 8
    bgH := 18
    labelX := posX n
    labelY := posY n + radius + 19 }

/-- The full node pass (source lines 239-281): every node in the array is
drawn. -/
noncomputable def drawnNodes (nodes : List GraphNode) (selected : Option GraphNode)
    (measure : String → ℝ) : List NodeCommand :=
  nodes.map (nodeCommand selected measure)

/-- One rendered frame: the zoom transform parameters and the edge and node
command lists (the drawing surface height is fixed at 380, source line 177). -/
structure Frame where
  zoom : ℝ
  w : ℝ
  h : ℝ
  edges : List EdgeCommand
  nodes : List NodeCommand

/-- `drawGraph` (source lines 168-284): edges are taken from the snapshot,
positions from the `nodesRef` arena, and the zoom transform
`translate(w/2, h/2); scale(zoom); translate(-w/2, -h/2)` (lines 204-207)
applies to every subsequent command. -/
noncomputable def drawGraph (graph : KnowledgeGraphData)
    (nodesArr : List GraphNode) (selected : Option GraphNode) (zoom w : ℝ)
    (measure : String → ℝ) : Frame :=
  { zoom := zoom
    w := w
    h := 380
    edges := drawnEdges nodesArr graph.edges
    nodes := drawnNodes nodesArr selected measure }

/-- The frame the component renders in a given state (source line 171:
`if (!canvas || !container || !graph) return` — with no snapshot, nothing is
drawn). -/
noncomputable def renderComponent (s : ComponentState) (w : ℝ)
    (measure : String → ℝ) : Option Frame :=
  s.graph.map (fun g => drawGraph g s.nodesRef s.selectedNode s.zoom w measure)

/-- Position of a drawing-space point under the zoom transform of
`drawGraph` (source lines 204-207): `p ↦ c + zoom • (p - c)` with `c` the
viewport center. -/
noncomputable def screenPos (zoom w h : ℝ) (p : ℝ × ℝ) : ℝ × ℝ :=
  (w / 2 + zoom * (p.1 - w / 2), h / 2 + zoom * (p.2 - h / 2))

/-- On-screen client coordinates of a drawing-space point: the canvas's
bounding rectangle offset plus the transformed position. -/
noncomputable def clientPos (zoom w h rectLeft rectTop : ℝ) (p : ℝ × ℝ) : ℝ × ℝ :=
  (rectLeft + (screenPos zoom w h p).1, rectTop + (screenPos zoom w h p).2)

/-! ## Pointer hit-testing (`handleCanvasClick`, source lines 287-302) -/

/-- `handleCanvasClick` (source lines 287-302): the click point is mapped to
`x = (clientX - rect.left) / zoom`, `y = (clientY - rect.top) / zoom`, and
the first node with `Math.sqrt(dx*dx + dy*dy) < 20` is returned
(`setSelectedNode(clickedNode || null)`). -/
noncomputable def handleCanvasClick (nodes : List GraphNode)
    (zoom clientX clientY rectLeft rectTop : ℝ) : Option GraphNode :=
  let x := (clientX - rectLeft) / zoom
  let y := (clientY - rectTop) / zoom
  nodes.find? (fun node =>
    decide (Real.sqrt ((posX node - x) * (posX node - x) +
      (posY node - y) * (posY node - y)) < 20))

/-- The state transition of a canvas click (source lines 287-302 together
with line 385 `onClick={handleCanvasClick}`): guarded by the presence of a
snapshot, the selection becomes the hit result (possibly `none`). -/
noncomputable def clickCanvas (s : ComponentState)
    (clientX clientY rectLeft rectTop : ℝ) : ComponentState :=
  if s.graph.isNone then s
  else { s with
          selectedNode :=
            handleCanvasClick s.nodesRef s.zoom clientX clientY rectLeft
              rectTop }

/-! ## Quick-navigation list (source lines 406-423) -/

/-- Category resolution of the quick-navigation filter (source line 409):
`n.data?.type || n.group`. -/
def quickNavCategory (n : GraphNode) : Option String :=
  jsOr (n.data.map (·.type)) n.group

/-- The quick-navigation list (source line 409):
`graph.nodes.filter(n => (n.data?.type || n.group) === 'section').slice(0, 6)`. -/
def quickNavList (g : KnowledgeGraphData) : List GraphNode :=
  (g.nodes.filter (fun n => quickNavCategory n == some "section")).take 6

/-- Clicking a quick-navigation entry (source line 412):
`onClick={() => setSelectedNode(node)}`. -/
def clickListEntry (s : ComponentState) (n : GraphNode) : ComponentState :=
  { s with selectedNode := some n }

/-! ## Concrete sample inputs used by closed statements -/

/-- A sample node positioned at `(100, 100)`. -/
def nodeN100 : GraphNode := { id := "n1", label := "Intro", x := some 100, y := some 100 }

/-- A sample snapshot holding `nodeN100` and no edges. -/
def sampleGraphData : KnowledgeGraphData := { nodes := [nodeN100], edges := [] }

/-- A sample component state with a loaded snapshot and `nodeN100` selected. -/
def selState : ComponentState :=
  { currentDocument := some "doc-1"
    graph := some sampleGraphData
    isGenerating := false
    isSimplified := false
    selectedNode := some nodeN100
    zoom := 1
    nodesRef := [nodeN100] }

/-- A sample node at the origin. -/
def cxNodeA : GraphNode := { id := "a", label := "A", x := some 0, y := some 0 }

/-- A sample node at `(1/2, 0)`: at distance `1/2` from `cxNodeA`. -/
noncomputable def cxNodeB : GraphNode :=
  { id := "b", label := "B", x := some (1 / 2), y := some 0 }

/-- A sample node at `(1, 0)`: at distance `1` from `cxNodeA`. -/
def cxNodeC : GraphNode := { id := "c", label := "C", x := some 1, y := some 0 }

/-- A sample node at `(300, 150)`, used for the zoomed hit-test scenario. -/
def cNode1 : GraphNode := { id := "c1", label := "C1", x := some 300, y := some 150 }

/-- First node carrying the duplicated id `"a"`. -/
def dupNode1 : GraphNode := { id := "a", label := "A1", x := some 100, y := some 100 }

/-- Second node carrying the duplicated id `"a"`, at a different position. -/
def dupNode2 : GraphNode := { id := "a", label := "A2", x := some 200, y := some 200 }

/-- An edge whose `to` id matches no node of `sampleGraphData`. -/
def danglingEdge : GraphEdge := { id := "e1", fromId := "n1", toId := "zz" }

/-! ## Theorems -/

/-- One zoom button press keeps the factor inside `[0.5, 2]` if it starts
there. -/
theorem applyZoomOp_bounds (z : ℝ) (op : ZoomOp) (h1 : 0.5 ≤ z) (h2 : z ≤ 2) :
    0.5 ≤ applyZoomOp z op ∧ applyZoomOp z op ≤ 2 := by
  cases op with
  | zoomIn =>
    constructor
    · simp only [applyZoomOp, zoomInStep, le_min_iff]
      constructor <;> linarith
    · simp only [applyZoomOp, zoomInStep]
      exact min_le_left (2 : ℝ) (z + 0.2)
  | zoomOut =>
    constructor
    · simp only [applyZoomOp, zoomOutStep]
      exact le_max_left (0.5 : ℝ) (z - 0.2)
    · simp only [applyZoomOp, zoomOutStep, max_le_iff]
      constructor <;> linarith

/-- C8: starting from the initial zoom factor 1.0, after any finite sequence
of zoom-in and zoom-out button presses (each changing the factor by a step of
0.2 and clamping), the zoom factor lies in `[0.5, 2.0]`: repeated zoom-in
never pushes it above 2.0 and repeated zoom-out never pushes it below 0.5. -/
theorem c8_zoom_clamped (ops : List ZoomOp) :
    0.5 ≤ applyZoomOps ops ∧ applyZoomOps ops ≤ 2 := by
  have key : ∀ (l : List ZoomOp) (z : ℝ), 0.5 ≤ z → z ≤ 2 →
      0.5 ≤ l.foldl applyZoomOp z ∧ l.foldl applyZoomOp z ≤ 2 := by
    intro l
    induction l with
    | nil => intro z h1 h2; exact ⟨h1, h2⟩
    | cons op t ih =>
      intro z h1 h2
      have h := applyZoomOp_bounds z op h1 h2
      simpa using ih (applyZoomOp z op) h.1 h.2
  simpa [applyZoomOps] using key ops 1 (by norm_num) (by norm_num)

/-- C9 counterexample: invoking `simplifyKnowledgeGraph` without an explicit
`maxNodes` argument issues the request with `max_nodes = 20`, not 15. -/
theorem c9_counterexample : (simplifyKnowledgeGraph "doc-1").max_nodes ≠ 15 := by
  simp only [simplifyKnowledgeGraph]
  norm_num

/-- C9 (amended): the API client's `simplifyKnowledgeGraph` defaults
`maxNodes` to 20 when no explicit argument is given; the `KnowledgeGraph`
component's simplify action always passes `maxNodes = 15` explicitly. -/
theorem c9_default_max_nodes (documentId : String) :
    (simplifyKnowledgeGraph documentId).max_nodes = 20 ∧
    (componentSimplifyRequest documentId).max_nodes = 15 :=
  ⟨rfl, rfl⟩

/-- C4 counterexample: a successful simplify replaces the snapshot but does
not clear the selection — from `selState` (with `nodeN100` selected), the
selection after `simplifySuccess` is still `some nodeN100`, not `none`. -/
theorem c4_counterexample :
    (simplifySuccess selState sampleGraphData).selectedNode = some nodeN100 ∧
    some nodeN100 ≠ (none : Option GraphNode) := by
  constructor
  · rfl
  · simp

/-- C4 (amended): a generate operation clears the selection (it is cleared
when the request starts, hence also after success), but a successful simplify
leaves the previous selection untouched. -/
theorem c4_amended (s : ComponentState) (data : KnowledgeGraphData)
    (hdoc : s.currentDocument.isSome) :
    (generateSuccess s data).selectedNode = none ∧
    (generateFailure s).selectedNode = none ∧
    (simplifySuccess s data).selectedNode = s.selectedNode := by
  have h : s.currentDocument.isNone = false := by
    cases hd : s.currentDocument with
    | none => rw [hd] at hdoc; cases hdoc
    | some d => rfl
  refine ⟨?_, ?_, ?_⟩
  · simp [generateSuccess, h]
  · simp [generateFailure, h]
  · unfold simplifySuccess
    split <;> rfl

/-- C4 witness: the amended statement holds at the sample state. -/
theorem c4_witness :
    selState.currentDocument.isSome = true ∧
    ((generateSuccess selState sampleGraphData).selectedNode = none ∧
     (generateFailure selState).selectedNode = none ∧
     (simplifySuccess selState sampleGraphData).selectedNode =
       selState.selectedNode) :=
  ⟨rfl, c4_amended selState sampleGraphData rfl⟩

/-- C5 counterexample: a failed generate does change the rendered canvas when
a node was selected — the selection is cleared before the request is issued,
so the selected node's enlarged circle and glow are gone after the failure. -/
theorem c5_counterexample :
    renderComponent (generateFailure selState) 800 (fun _ => 50) ≠
      renderComponent selState 800 (fun _ => 50) := by
  intro hEq
  have h2 := congrArg
    (fun o => Option.map (fun f => List.map (fun c => c.radius) f.nodes) o) hEq
  simp only [renderComponent, generateFailure, selState, sampleGraphData,
    drawGraph, drawnNodes, drawnEdges, nodeCommand, nodeN100, Option.isNone_some,
    Bool.false_eq_true, if_false, Option.map_some, List.map_cons, List.map_nil,
    Option.some.injEq, List.cons.injEq, and_true] at h2
  norm_num at h2

/-- C5 (amended): a failed generate or simplify leaves the snapshot and the
layout arena intact (atomicity of the snapshot on error, and the failure is
non-fatal); a failed simplify leaves the whole state — hence the rendered
canvas — unchanged, while a failed generate additionally clears the
selection. -/
theorem c5_failure_preserves_snapshot (s : ComponentState) (w : ℝ)
    (measure : String → ℝ) :
    (generateFailure s).graph = s.graph ∧
    (generateFailure s).nodesRef = s.nodesRef ∧
    simplifyFailure s = s ∧
    renderComponent (simplifyFailure s) w measure =
      renderComponent s w measure := by
  refine ⟨?_, ?_, rfl, rfl⟩
  · unfold generateFailure
    split <;> rfl
  · unfold generateFailure
    split <;> rfl

/-- C10: the quick-navigation list is exactly the nodes whose resolved
category (`data.type` when present and non-empty, otherwise `group`) equals
`"section"`, truncated to the first 6 in snapshot order; clicking a list
entry selects that node, and this is the same state a canvas hit returning
that node produces. -/
theorem c10_quicknav (g : KnowledgeGraphData) (s : ComponentState)
    (n : GraphNode) (cx cy ol ot : ℝ) :
    quickNavList g =
      (g.nodes.filter fun m =>
        decide (quickNavCategory m = some "section")).take 6 ∧
    (clickListEntry s n).selectedNode = some n ∧
    (s.graph.isSome →
      handleCanvasClick s.nodesRef s.zoom cx cy ol ot = some n →
      clickCanvas s cx cy ol ot = clickListEntry s n) := by
  refine ⟨?_, rfl, ?_⟩
  · unfold quickNavList
    congr 1
    apply List.filter_congr
    intro m _
    by_cases h : quickNavCategory m = some "section"
    · simp [h]
    · simp [h, beq_eq_false_iff_ne]
  · intro hg hhit
    unfold clickCanvas clickListEntry
    cases hgr : s.graph with
    | none => rw [hgr] at hg; cases hg
    | some g' => simp [hgr, hhit]

/-- C10 witness: in the sample state, the canvas hit at the node's center and
the quick-navigation click produce the same state. -/
theorem c10_witness :
    selState.graph.isSome = true ∧
    handleCanvasClick selState.nodesRef selState.zoom 100 100 0 0 =
      some nodeN100 ∧
    clickCanvas selState 100 100 0 0 = clickListEntry selState nodeN100 := by
  have hhit : handleCanvasClick selState.nodesRef selState.zoom 100 100 0 0 =
      some nodeN100 := by
    show handleCanvasClick [nodeN100] 1 100 100 0 0 = some nodeN100
    simp only [handleCanvasClick]
    refine List.find?_cons_of_pos _ ?_
    rw [decide_eq_true_eq]
    simp only [posX, posY, nodeN100, Option.getD_some]
    rw [show ((100 : ℝ) - (100 - 0) / 1) = 0 by norm_num]
    rw [show ((0 : ℝ) * 0 + 0 * 0) = 0 by norm_num]
    rw [Real.sqrt_zero]
    norm_num
  exact ⟨rfl, hhit,
    (c10_quicknav sampleGraphData selState nodeN100 100 100 0 0).2.2 rfl hhit⟩

/-- For a nonnegative squared distance, the source's
`Math.sqrt(d2) < 20` test is the same as `d2 < 400`. -/
theorem sqrt_lt_twenty (t : ℝ) : Real.sqrt t < 20 ↔ t < 400 := by
  rw [Real.sqrt_lt' (by norm_num : (0 : ℝ) < 20)]
  norm_num

/-- C1 counterexample: at zoom factor 2 (within `[0.5, 2.0]`), a click at
exactly the rendered center of `cNode1` — client coordinates `(200, 110)`
under the viewport-centered zoom transform with width 800, height 380 —
selects nothing: the handler divides by the zoom factor without undoing the
viewport-centering translation, so the transformed point is 221 units away
from the node and the selection is cleared. -/
theorem c1_counterexample :
    clientPos 2 800 380 0 0 (posX cNode1, posY cNode1) = (200, 110) ∧
    handleCanvasClick [cNode1] 2 200 110 0 0 = none := by
  constructor
  · simp only [clientPos, screenPos, posX, posY, cNode1, Option.getD_some,
      Prod.mk.injEq]
    constructor <;> norm_num
  · simp only [handleCanvasClick]
    rw [List.find?_cons_of_neg]
    · rfl
    · rw [decide_eq_true_eq, sqrt_lt_twenty]
      simp only [posX, posY, cNode1, Option.getD_some]
      norm_num

/-- C1 (amended): at zoom factor 1.0 the rendered center of a drawing-space
point is the point itself offset by the surface's on-screen position, and the
click handler is correct: if some node's rendered center is within the hit
radius 20 of the click, the handler selects a node within the hit radius (the
first in node order), and if every node is farther than 20 the selection is
cleared.  (At zoom factors other than 1 the divide-by-zoom inverse does not
match the viewport-centered render transform, so the hit property fails; the
handler's transform itself is as the claim describes.) -/
theorem c1_amended (nodes : List GraphNode) (w h cx cy ol ot : ℝ) :
    (∀ p : ℝ × ℝ, clientPos 1 w h ol ot p = (ol + p.1, ot + p.2)) ∧
    ((∃ n ∈ nodes,
        Real.sqrt ((cx - (ol + posX n)) * (cx - (ol + posX n)) +
          (cy - (ot + posY n)) * (cy - (ot + posY n))) < 20) →
      ∃ m, handleCanvasClick nodes 1 cx cy ol ot = some m ∧
        Real.sqrt ((cx - (ol + posX m)) * (cx - (ol + posX m)) +
          (cy - (ot + posY m)) * (cy - (ot + posY m))) < 20) ∧
    ((∀ n ∈ nodes,
        ¬ Real.sqrt ((cx - (ol + posX n)) * (cx - (ol + posX n)) +
          (cy - (ot + posY n)) * (cy - (ot + posY n))) < 20) →
      handleCanvasClick nodes 1 cx cy ol ot = none) := by
  have hbridge : ∀ n : GraphNode,
      (decide (Real.sqrt ((posX n - (cx - ol) / 1) * (posX n - (cx - ol) / 1) +
        (posY n - (cy - ot) / 1) * (posY n - (cy - ot) / 1)) < 20) = true) ↔
      Real.sqrt ((cx - (ol + posX n)) * (cx - (ol + posX n)) +
        (cy - (ot + posY n)) * (cy - (ot + posY n))) < 20 := by
    intro n
    rw [decide_eq_true_eq]
    rw [show (posX n - (cx - ol) / 1) * (posX n - (cx - ol) / 1) +
        (posY n - (cy - ot) / 1) * (posY n - (cy - ot) / 1) =
        (cx - (ol + posX n)) * (cx - (ol + posX n)) +
        (cy - (ot + posY n)) * (cy - (ot + posY n)) from by ring]
  refine ⟨?_, ?_, ?_⟩
  · intro p
    simp only [clientPos, screenPos, Prod.mk.injEq]
    constructor <;> ring
  · intro hex
    obtain ⟨n, hn, hlt⟩ := hex
    simp only [handleCanvasClick]
    have hsome : (nodes.find? (fun node =>
        decide (Real.sqrt ((posX node - (cx - ol) / 1) *
          (posX node - (cx - ol) / 1) + (posY node - (cy - ot) / 1) *
          (posY node - (cy - ot) / 1)) < 20))).isSome = true := by
      rw [List.find?_isSome]
      exact ⟨n, hn, (hbridge n).mpr hlt⟩
    obtain ⟨m, hm⟩ := Option.isSome_iff_exists.mp hsome
    have hp := List.find?_some hm
    exact ⟨m, hm, (hbridge m).mp hp⟩
  · intro hall
    simp only [handleCanvasClick]
    rw [List.find?_eq_none]
    intro n hn
    exact fun hc => hall n hn ((hbridge n).mp hc)

/-- C1 witness: a click far from the only node clears the selection. -/
theorem c1_witness :
    (∀ n ∈ [nodeN100],
      ¬ Real.sqrt ((500 - (0 + posX n)) * (500 - (0 + posX n)) +
        (300 - (0 + posY n)) * (300 - (0 + posY n))) < 20) ∧
    handleCanvasClick [nodeN100] 1 500 300 0 0 = none := by
  have hall : ∀ n ∈ [nodeN100],
      ¬ Real.sqrt ((500 - (0 + posX n)) * (500 - (0 + posX n)) +
        (300 - (0 + posY n)) * (300 - (0 + posY n))) < 20 := by
    intro n hn
    rw [List.mem_singleton] at hn
    subst hn
    rw [sqrt_lt_twenty]
    simp only [posX, posY, nodeN100, Option.getD_some]
    norm_num
  exact ⟨hall, (c1_amended [nodeN100] 800 380 500 300 0 0).2.2 hall⟩

/-- C7 counterexample: duplicate node ids are not ignored — the node pass
draws every array entry, so a snapshot with two nodes of id `"a"` renders a
different frame than the same snapshot with only the first occurrence: the
occurrence after the first does affect what is drawn. -/
theorem c7_counterexample :
    drawnNodes [dupNode1, dupNode2] none (fun _ => 50) ≠
      drawnNodes [dupNode1] none (fun _ => 50) := by
  intro hEq
  have hlen := congrArg List.length hEq
  simp [drawnNodes] at hlen

/-- C7 (amended): duplicate node ids are tolerated without raising, and every
per-id lookup (`nodes.find(n => n.id === x)`) resolves to the first node
bearing that id; however, occurrences after the first are not ignored — they
are still simulated and drawn as separate nodes (every array entry yields a
node command). -/
theorem c7_amended (pre post : List GraphNode) (n : GraphNode) (x : String)
    (sel : Option GraphNode) (measure : String → ℝ)
    (hn : n.id = x) (hpre : ∀ m ∈ pre, m.id ≠ x) :
    (pre ++ n :: post).find? (fun m => m.id == x) = some n ∧
    (drawnNodes (pre ++ n :: post) sel measure).length =
      (pre ++ n :: post).length := by
  constructor
  · induction pre with
    | nil =>
      refine List.find?_cons_of_pos _ ?_
      rw [beq_iff_eq]
      exact hn
    | cons m t ih =>
      have hm : ¬ (m.id == x) = true := by
        rw [beq_iff_eq]
        exact hpre m (by simp)
      rw [List.cons_append]
      calc List.find? (fun m' => m'.id == x) (m :: (t ++ n :: post))
          = List.find? (fun m' => m'.id == x) (t ++ n :: post) :=
            List.find?_cons_of_neg _ hm
        _ = some n := ih fun m' hm' => hpre m' (by simp [hm'])
  · simp [drawnNodes]

/-- C7 witness: with a non-matching node in front, the duplicated id `"a"`
resolves to its first occurrence. -/
theorem c7_witness :
    (dupNode1.id = "a" ∧ ∀ m ∈ [nodeN100], m.id ≠ "a") ∧
    ([nodeN100] ++ dupNode1 :: [dupNode2]).find? (fun m => m.id == "a") =
      some dupNode1 := by
  have h1 : dupNode1.id = "a" := rfl
  have h2 : ∀ m ∈ [nodeN100], m.id ≠ "a" := by
    intro m hm
    rw [List.mem_singleton] at hm
    subst hm
    simp [nodeN100]
  exact ⟨⟨h1, h2⟩,
    (c7_amended [nodeN100] [dupNode2] dupNode1 "a" none (fun _ => 50) h1 h2).1⟩

/-- When the distance is nonzero, the `|| 1` guard in the repulsion loop is
inert and the contribution is the distance-normalized inverse-square term. -/
theorem repulsionContrib_eq (a b : GraphNode) (hne : nodeDist a b ≠ 0) :
    repulsionContrib a b =
      ((posX a - posX b) / nodeDist a b *
        (5000 / (nodeDist a b * nodeDist a b)),
       (posY a - posY b) / nodeDist a b *
        (5000 / (nodeDist a b * nodeDist a b))) := by
  have h' : ¬ (Real.sqrt ((posX a - posX b) * (posX a - posX b) +
      (posY a - posY b) * (posY a - posY b)) = 0) := by
    simpa [nodeDist] using hne
  simp only [repulsionContrib, nodeDist]
  rw [if_neg h']

/-- Magnitude of a vector scaled along a unit direction. -/
theorem sq_magnitude (dx dy d F : ℝ) (hne : d ≠ 0)
    (hd2 : dx * dx + dy * dy = d * d) :
    (dx / d * F) * (dx / d * F) + (dy / d * F) * (dy / d * F) = F * F := by
  have e1 : (dx / d * F) * (dx / d * F) + (dy / d * F) * (dy / d * F) =
      (dx * dx + dy * dy) * (F * F) / (d * d) := by
    ring
  rw [e1, hd2]
  field_simp

/-- C3 (amended): for every ordered pair of distinct nodes at nonzero
distance `d`, the repulsive contribution on `a` away from `b` is the vector
`(dx/d, dy/d) * 5000/d²` and its magnitude is `5000/d²` with `d` the actual
Euclidean distance: the `|| 1` guard substitutes a divisor of 1 only when the
distance is exactly 0, so distances strictly between 0 and 1 use the actual
distance (and the magnitude exceeds 5000). -/
theorem c3_amended (a b : GraphNode) (hpos : 0 < nodeDist a b) :
    repulsionContrib a b =
      ((posX a - posX b) / nodeDist a b *
        (5000 / (nodeDist a b * nodeDist a b)),
       (posY a - posY b) / nodeDist a b *
        (5000 / (nodeDist a b * nodeDist a b))) ∧
    Real.sqrt ((repulsionContrib a b).1 * (repulsionContrib a b).1 +
        (repulsionContrib a b).2 * (repulsionContrib a b).2) =
      5000 / (nodeDist a b * nodeDist a b) := by
  have hne : nodeDist a b ≠ 0 := ne_of_gt hpos
  have h1 := repulsionContrib_eq a b hne
  refine ⟨h1, ?_⟩
  rw [h1]
  have hd2 : (posX a - posX b) * (posX a - posX b) +
      (posY a - posY b) * (posY a - posY b) = nodeDist a b * nodeDist a b := by
    simp only [nodeDist]
    exact (Real.mul_self_sqrt
      (add_nonneg (mul_self_nonneg _) (mul_self_nonneg _))).symm
  have hF : (0 : ℝ) ≤ 5000 / (nodeDist a b * nodeDist a b) :=
    div_nonneg (by norm_num) (mul_self_nonneg _)
  rw [sq_magnitude (posX a - posX b) (posY a - posY b) (nodeDist a b)
    (5000 / (nodeDist a b * nodeDist a b)) hne hd2]
  exact Real.sqrt_mul_self hF

/-- C3 counterexample: for the pair `(cxNodeA, cxNodeB)` at distance `1/2`
(strictly between 0 and 1), the repulsion contribution computed by the code
has magnitude 20000 — `5000/d²` with the actual distance — whereas a divisor
floored at 1 would give magnitude 5000. -/
theorem c3_counterexample :
    Real.sqrt ((repulsionContrib cxNodeA cxNodeB).1 *
        (repulsionContrib cxNodeA cxNodeB).1 +
      (repulsionContrib cxNodeA cxNodeB).2 *
        (repulsionContrib cxNodeA cxNodeB).2) = 20000 ∧
    5000 / (max 1 (nodeDist cxNodeA cxNodeB) *
      max 1 (nodeDist cxNodeA cxNodeB)) = 5000 ∧
    (20000 : ℝ) ≠ 5000 := by
  have hdist : nodeDist cxNodeA cxNodeB = 1 / 2 := by
    simp only [nodeDist, posX, posY, cxNodeA, cxNodeB, Option.getD_some]
    rw [show ((0 : ℝ) - 1 / 2) * (0 - 1 / 2) + (0 - 0) * (0 - 0) =
      (1 / 2) ^ 2 by norm_num]
    exact Real.sqrt_sq (by norm_num)
  have hcontrib : repulsionContrib cxNodeA cxNodeB = (-20000, 0) := by
    rw [repulsionContrib_eq cxNodeA cxNodeB (by rw [hdist]; norm_num), hdist]
    simp only [posX, posY, cxNodeA, cxNodeB, Option.getD_some]
    norm_num
  refine ⟨?_, ?_, by norm_num⟩
  · rw [hcontrib]
    show Real.sqrt ((-20000 : ℝ) * -20000 + 0 * 0) = 20000
    rw [show ((-20000 : ℝ)) * -20000 + 0 * 0 = 20000 ^ 2 by norm_num]
    exact Real.sqrt_sq (by norm_num)
  · rw [hdist, show max (1 : ℝ) (1 / 2) = 1 from max_eq_left (by norm_num)]
    norm_num

/-- C3 witness: the amended statement holds at the pair at distance 1. -/
theorem c3_witness :
    0 < nodeDist cxNodeA cxNodeC ∧
    (repulsionContrib cxNodeA cxNodeC =
      ((posX cxNodeA - posX cxNodeC) / nodeDist cxNodeA cxNodeC *
        (5000 / (nodeDist cxNodeA cxNodeC * nodeDist cxNodeA cxNodeC)),
       (posY cxNodeA - posY cxNodeC) / nodeDist cxNodeA cxNodeC *
        (5000 / (nodeDist cxNodeA cxNodeC * nodeDist cxNodeA cxNodeC))) ∧
     Real.sqrt ((repulsionContrib cxNodeA cxNodeC).1 *
         (repulsionContrib cxNodeA cxNodeC).1 +
       (repulsionContrib cxNodeA cxNodeC).2 *
         (repulsionContrib cxNodeA cxNodeC).2) =
       5000 / (nodeDist cxNodeA cxNodeC * nodeDist cxNodeA cxNodeC)) := by
  have hone : nodeDist cxNodeA cxNodeC = 1 := by
    simp only [nodeDist, posX, posY, cxNodeA, cxNodeC, Option.getD_some]
    rw [show ((0 : ℝ) - 1) * (0 - 1) + (0 - 0) * (0 - 0) = 1 by norm_num]
    exact Real.sqrt_one
  have hpos : 0 < nodeDist cxNodeA cxNodeC := by
    rw [hone]; norm_num
  exact ⟨hpos, c3_amended cxNodeA cxNodeC hpos⟩

/-- The updated x coordinate is the clamped position update. -/
theorem posX_stepNode (acc : List GraphNode) (edges : List GraphEdge)
    (w h : ℝ) (i : ℕ) (node : GraphNode) :
    posX (stepNode acc edges w h i node) =
      max 70 (min (w - 70) (posX node +
        (velX node + (netForce acc edges w h i node).1) * 0.7)) := rfl

/-- The updated y coordinate is the clamped position update. -/
theorem posY_stepNode (acc : List GraphNode) (edges : List GraphEdge)
    (w h : ℝ) (i : ℕ) (node : GraphNode) :
    posY (stepNode acc edges w h i node) =
      max 55 (min (h - 55) (posY node +
        (velY node + (netForce acc edges w h i node).2) * 0.7)) := rfl

/-- `max lo (min hi t)` lands in `[lo, hi]` when the interval is nonempty. -/
theorem clamp_bounds (lo hi t : ℝ) (h : lo ≤ hi) :
    lo ≤ max lo (min hi t) ∧ max lo (min hi t) ≤ hi :=
  ⟨le_max_left _ _, max_le h (min_le_left _ _)⟩

/-- `stepAt` at an out-of-range index is the identity. -/
theorem stepAt_eq_none (edges : List GraphEdge) (w h : ℝ)
    (acc : List GraphNode) (i : ℕ) (hacc : acc[i]? = none) :
    stepAt edges w h acc i = acc := by
  unfold stepAt
  rw [hacc]

/-- `stepAt` at an in-range index updates exactly that entry. -/
theorem stepAt_eq_some (edges : List GraphEdge) (w h : ℝ)
    (acc : List GraphNode) (i : ℕ) (node : GraphNode)
    (hacc : acc[i]? = some node) :
    stepAt edges w h acc i = acc.set i (stepNode acc edges w h i node) := by
  unfold stepAt
  rw [hacc]

/-- `stepAt` preserves the length of the node array. -/
theorem stepAt_length (edges : List GraphEdge) (w h : ℝ)
    (acc : List GraphNode) (i : ℕ) :
    (stepAt edges w h acc i).length = acc.length := by
  cases hacc : acc[i]? with
  | none => rw [stepAt_eq_none edges w h acc i hacc]
  | some node =>
    rw [stepAt_eq_some edges w h acc i node hacc, List.length_set]

/-- The simulation fold preserves the length of the node array. -/
theorem foldl_stepAt_length (edges : List GraphEdge) (w h : ℝ)
    (l : List ℕ) (acc : List GraphNode) :
    (l.foldl (stepAt edges w h) acc).length = acc.length := by
  induction l generalizing acc with
  | nil => rfl
  | cons i t ih => rw [List.foldl_cons, ih, stepAt_length]

/-- C2: after any invocation of the simulation step, every node's position
satisfies `70 ≤ x ≤ width − 70` and `55 ≤ y ≤ height − 55` (padding 70 on the
x axis, 55 on the y axis), because the position update clamps `p + v` to
`[padding, dimension − padding]` independently per axis; the dimensions must
leave the clamp intervals nonempty (`width ≥ 140`, `height ≥ 110` — in the
component the height is fixed at 380). -/
theorem c2_bounds (nodes : List GraphNode) (edges : List GraphEdge)
    (w h : ℝ) (hw : 140 ≤ w) (hh : 110 ≤ h) :
    ∀ n ∈ simulateForces nodes edges w h,
      70 ≤ posX n ∧ posX n ≤ w - 70 ∧ 55 ≤ posY n ∧ posY n ≤ h - 55 := by
  have hwi : (70 : ℝ) ≤ w - 70 := by linarith
  have hhi : (55 : ℝ) ≤ h - 55 := by linarith
  have hstep : ∀ (acc : List GraphNode) (i : ℕ) (node : GraphNode),
      70 ≤ posX (stepNode acc edges w h i node) ∧
      posX (stepNode acc edges w h i node) ≤ w - 70 ∧
      55 ≤ posY (stepNode acc edges w h i node) ∧
      posY (stepNode acc edges w h i node) ≤ h - 55 := by
    intro acc i node
    rw [posX_stepNode, posY_stepNode]
    exact ⟨(clamp_bounds _ _ _ hwi).1, (clamp_bounds _ _ _ hwi).2,
      (clamp_bounds _ _ _ hhi).1, (clamp_bounds _ _ _ hhi).2⟩
  have key : ∀ (k j : ℕ) (n : GraphNode), j < k →
      ((List.range k).foldl (stepAt edges w h) nodes)[j]? = some n →
      70 ≤ posX n ∧ posX n ≤ w - 70 ∧ 55 ≤ posY n ∧ posY n ≤ h - 55 := by
    intro k
    induction k with
    | zero => intro j n hj; exact absurd hj (Nat.not_lt_zero j)
    | succ k ih =>
      intro j n hj hget
      rw [List.range_succ, List.foldl_append, List.foldl_cons,
        List.foldl_nil] at hget
      cases hacck : ((List.range k).foldl (stepAt edges w h) nodes)[k]? with
      | none =>
        rw [stepAt_eq_none _ _ _ _ _ hacck] at hget
        rcases Nat.lt_succ_iff_lt_or_eq.mp hj with hlt | heq
        · exact ih j n hlt hget
        · subst heq
          rw [hacck] at hget
          simp at hget
      | some node =>
        rw [stepAt_eq_some _ _ _ _ _ _ hacck] at hget
        rcases Nat.lt_succ_iff_lt_or_eq.mp hj with hlt | heq
        · rw [List.getElem?_set_ne (Ne.symm (Nat.ne_of_lt hlt))] at hget
          exact ih j n hlt hget
        · subst heq
          have hklt :
              j < ((List.range j).foldl (stepAt edges w h) nodes).length := by
            by_contra hc
            rw [List.getElem?_eq_none (le_of_not_lt hc)] at hacck
            simp at hacck
          rw [List.getElem?_set_eq_of_lt _ hklt, Option.some.injEq] at hget
          subst hget
          exact hstep _ _ _
  intro n hn
  obtain ⟨j, hj⟩ := List.getElem?_of_mem hn
  have hjlt : j < (simulateForces nodes edges w h).length := by
    by_contra hc
    rw [List.getElem?_eq_none (le_of_not_lt hc)] at hj
    simp at hj
  have hlen : (simulateForces nodes edges w h).length = nodes.length :=
    foldl_stepAt_length edges w h _ nodes
  exact key nodes.length j n (by rw [← hlen]; exact hjlt) hj

/-- C2 witness: the bounds hold on a concrete seeded node set in an
800-by-380 viewport. -/
theorem c2_witness :
    (140 : ℝ) ≤ 800 ∧ (110 : ℝ) ≤ 380 ∧
    ∀ n ∈ simulateForces [nodeN100] [] 800 380,
      70 ≤ posX n ∧ posX n ≤ 800 - 70 ∧ 55 ≤ posY n ∧ posY n ≤ 380 - 55 :=
  ⟨by norm_num, by norm_num,
    c2_bounds [nodeN100] [] 800 380 (by norm_num) (by norm_num)⟩

/-- `stepAt` never changes node identities, only positions and velocities. -/
theorem stepAt_map_id (edges : List GraphEdge) (w h : ℝ)
    (acc : List GraphNode) (i : ℕ) :
    (stepAt edges w h acc i).map GraphNode.id = acc.map GraphNode.id := by
  cases hacc : acc[i]? with
  | none => rw [stepAt_eq_none _ _ _ _ _ hacc]
  | some node =>
    rw [stepAt_eq_some _ _ _ _ _ _ hacc]
    apply List.ext_getElem?
    intro j
    rw [List.getElem?_map, List.getElem?_map]
    by_cases hj : i = j
    · subst hj
      have hlt : i < acc.length := by
        by_contra hc
        rw [List.getElem?_eq_none (le_of_not_lt hc)] at hacc
        simp at hacc
      rw [List.getElem?_set_eq_of_lt _ hlt, hacc]
      rfl
    · rw [List.getElem?_set_ne hj]

/-- A by-id search failing on one list fails on any list with the same ids. -/
theorem find?_id_none_transfer (nodes acc : List GraphNode) (y : String)
    (hids : acc.map GraphNode.id = nodes.map GraphNode.id)
    (hnone : nodes.find? (fun n => n.id == y) = none) :
    acc.find? (fun n => n.id == y) = none := by
  rw [List.find?_eq_none] at hnone ⊢
  intro m hm hc
  rw [beq_iff_eq] at hc
  have hmem : m.id ∈ acc.map GraphNode.id := List.mem_map_of_mem _ hm
  rw [hids] at hmem
  obtain ⟨m', hm', he⟩ := List.mem_map.mp hmem
  exact hnone m' hm' (by rw [beq_iff_eq]; exact he.trans hc)

/-- An edge with an endpoint id absent from the node set resolves no "other"
endpoint for any node, on any array carrying the same ids. -/
theorem attractionOther_eq_none (nodes : List GraphNode) (e : GraphEdge)
    (hd : nodes.find? (fun n => n.id == e.fromId) = none ∨
          nodes.find? (fun n => n.id == e.toId) = none)
    (acc : List GraphNode)
    (hids : acc.map GraphNode.id = nodes.map GraphNode.id)
    (node : GraphNode) (hmem : node ∈ acc) :
    attractionOther acc node e = none := by
  have hall : ∀ y, nodes.find? (fun n => n.id == y) = none →
      ∀ m ∈ acc, m.id ≠ y := by
    intro y hy m hm hc
    have hy' := find?_id_none_transfer nodes acc y hids hy
    rw [List.find?_eq_none] at hy'
    exact hy' m hm (by rw [beq_iff_eq]; exact hc)
  unfold attractionOther
  rcases hd with hfrom | hto
  · rw [if_neg (fun h1 => hall _ hfrom node hmem h1.symm)]
    by_cases h2 : e.toId = node.id
    · rw [if_pos h2]
      exact find?_id_none_transfer nodes acc e.fromId hids hfrom
    · rw [if_neg h2]
  · by_cases h1 : e.fromId = node.id
    · rw [if_pos h1]
      exact find?_id_none_transfer nodes acc e.toId hids hto
    · rw [if_neg h1, if_neg (fun h2 => hall _ hto node hmem h2.symm)]

/-- An edge resolving no "other" endpoint contributes nothing to the
attraction fold. -/
theorem attractionForce_skip (acc : List GraphNode) (node : GraphNode)
    (pre post : List GraphEdge) (e : GraphEdge) (init : ℝ × ℝ)
    (hnone : attractionOther acc node e = none) :
    attractionForce acc node (pre ++ e :: post) init =
      attractionForce acc node (pre ++ post) init := by
  unfold attractionForce
  rw [List.foldl_append, List.foldl_append, List.foldl_cons]
  congr 1
  simp only [hnone]

/-- Removing an edge that resolves no "other" endpoint does not change the
per-node update. -/
theorem stepNode_skip_edge (acc : List GraphNode)
    (pre post : List GraphEdge) (e : GraphEdge) (w h : ℝ) (i : ℕ)
    (node : GraphNode) (hnone : attractionOther acc node e = none) :
    stepNode acc (pre ++ e :: post) w h i node =
      stepNode acc (pre ++ post) w h i node := by
  unfold stepNode netForce
  rw [attractionForce_skip acc node pre post e _ hnone]

/-- Removing a dangling edge does not change the simulation step. -/
theorem simulateForces_skip_edge (nodes : List GraphNode)
    (pre post : List GraphEdge) (e : GraphEdge) (w h : ℝ)
    (hd : nodes.find? (fun n => n.id == e.fromId) = none ∨
          nodes.find? (fun n => n.id == e.toId) = none) :
    simulateForces nodes (pre ++ e :: post) w h =
      simulateForces nodes (pre ++ post) w h := by
  unfold simulateForces
  have key : ∀ (l : List ℕ) (acc : List GraphNode),
      acc.map GraphNode.id = nodes.map GraphNode.id →
      l.foldl (stepAt (pre ++ e :: post) w h) acc =
        l.foldl (stepAt (pre ++ post) w h) acc := by
    intro l
    induction l with
    | nil => intro acc _; rfl
    | cons i t ih =>
      intro acc hids
      rw [List.foldl_cons, List.foldl_cons]
      have hstep : stepAt (pre ++ e :: post) w h acc i =
          stepAt (pre ++ post) w h acc i := by
        cases hacc : acc[i]? with
        | none =>
          rw [stepAt_eq_none _ _ _ _ _ hacc, stepAt_eq_none _ _ _ _ _ hacc]
        | some node =>
          rw [stepAt_eq_some _ _ _ _ _ _ hacc,
            stepAt_eq_some _ _ _ _ _ _ hacc,
            stepNode_skip_edge acc pre post e w h i node
              (attractionOther_eq_none nodes e hd acc hids node
                (List.getElem?_mem hacc))]
      rw [hstep, ih (stepAt (pre ++ post) w h acc i)
        (by rw [stepAt_map_id]; exact hids)]
  exact key _ nodes rfl

/-- An edge with a missing endpoint draws nothing: no line, no arrowhead. -/
theorem edgeCommand_eq_none (nodes : List GraphNode) (e : GraphEdge)
    (hd : nodes.find? (fun n => n.id == e.fromId) = none ∨
          nodes.find? (fun n => n.id == e.toId) = none) :
    edgeCommand nodes e = none := by
  unfold edgeCommand
  rcases hd with hfrom | hto
  · rw [hfrom]
  · rw [hto]
    cases nodes.find? (fun n => n.id == e.fromId) <;> rfl

/-- C6: an edge whose `from` or `to` id matches no node is skipped — it
yields no drawn line or arrowhead, resolves no attraction partner for any
node, and removing it changes neither the rendered edge pass nor the
simulation step, while all remaining well-formed edges are processed
normally (rendering and simulation are total, so both complete without
error). -/
theorem c6_dangling_edge (nodes : List GraphNode)
    (pre post : List GraphEdge) (e : GraphEdge) (w h : ℝ)
    (hd : nodes.find? (fun n => n.id == e.fromId) = none ∨
          nodes.find? (fun n => n.id == e.toId) = none) :
    edgeCommand nodes e = none ∧
    drawnEdges nodes (pre ++ e :: post) = drawnEdges nodes (pre ++ post) ∧
    (∀ node ∈ nodes, attractionOther nodes node e = none) ∧
    simulateForces nodes (pre ++ e :: post) w h =
      simulateForces nodes (pre ++ post) w h := by
  have hcmd := edgeCommand_eq_none nodes e hd
  refine ⟨hcmd, ?_, ?_, simulateForces_skip_edge nodes pre post e w h hd⟩
  · unfold drawnEdges
    rw [List.filterMap_append, List.filterMap_append,
      List.filterMap_cons_none hcmd]
  · intro node hmem
    exact attractionOther_eq_none nodes e hd nodes rfl node hmem

/-- C6 witness: the dangling sample edge is skipped on the sample node set. -/
theorem c6_witness :
    [nodeN100].find? (fun n => n.id == danglingEdge.toId) = none ∧
    edgeCommand [nodeN100] danglingEdge = none := by
  have hfind : [nodeN100].find? (fun n => n.id == danglingEdge.toId) = none :=
    rfl
  exact ⟨hfind,
    (c6_dangling_edge [nodeN100] [] [] danglingEdge 800 380 (Or.inr hfind)).1⟩

end KG
